import Mathlib

/-!
# Verification of the data-fetching pipeline

Shallow embedding of the retry/fetch logic (`src/fetch.py`, `src/game.py`),
the schedule resolver (`src/fetch.py`), and the stat aggregators
(`src/baseball_metrics.py`, `src/hitting_metrics_pbp.py`,
`src/pitching_metrics_pbp.py`, `src/fip-calculator.py`), together with
theorems settling the behavioural claims about them.
-/

set_option maxRecDepth 2000

namespace DataFetching

/-! ## Embedding of `src/fetch.py` (`make_api_request`) and `src/game.py`

`make_api_request(url, params, max_retries=3, delay=2)` runs a
`for attempt in range(max_retries)` loop around `session.get`.  We model the
outcome of each `session.get` call by an oracle `Nat → AttemptResult`
(attempt index ↦ what the transport layer produced for that attempt).  The
urllib3 adapter retry mounted by `create_session_with_retries` sits below
`session.get`; its internal retries on statuses 429/500/502/503/504 are
absorbed into the oracle's answer for the attempt. -/

/-- A decoded JSON payload, kept abstract. -/
abbrev Json := Nat

/-- Outcome of one `session.get(url, params=params, timeout=(10, 30))` call:
one of the three exception classes the code names, or an HTTP response with a
status code and a body (`none` = body is malformed JSON). -/
inductive AttemptResult where
  | connectTimeout
  | readTimeout
  | transportError
  | httpResponse (status : Nat) (body : Option Json)
deriving DecidableEq, Repr

/-- The exception that terminates processing of one attempt. -/
inductive ErrKind where
  | connectTimeout
  | readTimeout
  | httpError (status : Nat)
  | jsonDecode
  | transportError
deriving DecidableEq, Repr

/-- What the `try:` block of `make_api_request` does with one `session.get`
outcome: `response.raise_for_status()` raises `HTTPError` for statuses
`400 ≤ status`, and `response.json()` raises
`requests.exceptions.JSONDecodeError` on a malformed body.  In requests
≥ 2.27 both `HTTPError` and `JSONDecodeError` are subclasses of
`RequestException`, so both land in the generic `except
requests.exceptions.RequestException` branch of the loop, exactly like
`transportError`. -/
def attemptOutcome : AttemptResult → Json ⊕ ErrKind
  | .connectTimeout => .inr .connectTimeout
  | .readTimeout => .inr .readTimeout
  | .transportError => .inr .transportError
  | .httpResponse status body =>
      if 400 ≤ status then .inr (.httpError status)
      else
        match body with
        | some j => .inl j
        | none => .inr .jsonDecode

/-- A transient transport failure in the sense of the spec: connect-timeout,
read-timeout, or generic transport error (the three `except` clauses that do
not come from a delivered HTTP response). -/
def isTransient : AttemptResult → Bool
  | .connectTimeout => true
  | .readTimeout => true
  | .transportError => true
  | .httpResponse _ _ => false

/-- The exception kind raised for a transient failure. -/
def transientErr : AttemptResult → ErrKind
  | .connectTimeout => .connectTimeout
  | .readTimeout => .readTimeout
  | _ => .transportError

/-- How `make_api_request` ends: `return response.json()`, an exception
propagating out of the final attempt (`raise`), or the `return None` that is
reached only when `range(max_retries)` is empty. -/
inductive ReqOutcome where
  | success (j : Json)
  | error (e : ErrKind)
  | noneResult
deriving DecidableEq, Repr

/-- Observable result of a `make_api_request` run: how many `session.get`
attempts were made, the total argument passed to `time.sleep`, and the final
outcome. -/
structure RunResult where
  attempts : Nat
  totalSleep : Nat
  outcome : ReqOutcome
deriving DecidableEq, Repr

/-- The `for attempt in range(max_retries)` loop of `make_api_request`.
`fuel` is the number of iterations still available, so inside an iteration
for index `attempt` we have `fuel + 1 = max_retries - attempt`; the code's
guard `attempt < max_retries - 1` (sleep-and-retry vs `raise`) is exactly
`0 < fuel`.  On a failure that retries, the code sleeps
`delay * (2 ** attempt)` seconds. -/
def requestLoop (oracle : Nat → AttemptResult) (delay : Nat) :
    Nat → Nat → Nat → RunResult
  | attempt, 0, sleepAcc => ⟨attempt, sleepAcc, .noneResult⟩
  | attempt, fuel + 1, sleepAcc =>
      match attemptOutcome (oracle attempt) with
      | .inl j => ⟨attempt + 1, sleepAcc, .success j⟩
      | .inr e =>
          if 0 < fuel then
            requestLoop oracle delay (attempt + 1) fuel
              (sleepAcc + delay * 2 ^ attempt)
          else
            ⟨attempt + 1, sleepAcc, .error e⟩

/-- `make_api_request(url, params, max_retries, delay)` under the attempt
oracle. -/
def make_api_request (oracle : Nat → AttemptResult) (max_retries delay : Nat) :
    RunResult :=
  requestLoop oracle delay 0 max_retries 0

/-- `game.py`'s `fetch_hydrated_game_data` (and `fetch_boxscore_data`): a
single `requests.get` with no loop; `except requests.RequestException` and
`except json.JSONDecodeError` both fall through to `return None`.  The one
`requests.get` outcome is the argument. -/
def fetch_hydrated_game_data (r : AttemptResult) : Option Json :=
  match attemptOutcome r with
  | .inl j => some j
  | .inr _ => none

/-! ### Loop lemmas -/

theorem attemptOutcome_of_transient {r : AttemptResult}
    (h : isTransient r = true) : attemptOutcome r = .inr (transientErr r) := by
  cases r <;> simp_all [isTransient, attemptOutcome, transientErr]

/-- If attempts `a, a+1, …, a+N-1` all raise and attempt `a+N` succeeds with
`j`, the loop (with enough fuel) returns `j` after `N + 1` further attempts,
having slept `delay * 2 ^ (a + i)` for each failed attempt. -/
theorem requestLoop_success (oracle : Nat → AttemptResult) (delay : Nat)
    (err : Nat → ErrKind) (j : Json) :
    ∀ (N a fuel s : Nat), N < fuel →
      (∀ i, i < N → attemptOutcome (oracle (a + i)) = .inr (err (a + i))) →
      attemptOutcome (oracle (a + N)) = .inl j →
      requestLoop oracle delay a fuel s =
        ⟨a + N + 1, s + ∑ i in Finset.range N, delay * 2 ^ (a + i),
          .success j⟩ := by
  intro N
  induction N with
  | zero =>
      intro a fuel s hfuel _ hsucc
      obtain ⟨f, rfl⟩ : ∃ f, fuel = f + 1 := ⟨fuel - 1, by omega⟩
      simp only [Nat.add_zero] at hsucc
      simp [requestLoop, hsucc]
  | succ n ih =>
      intro a fuel s hfuel hfail hsucc
      obtain ⟨f, rfl⟩ : ∃ f, fuel = n + 1 + f + 1 := ⟨fuel - n - 2, by omega⟩
      have hfail0 : attemptOutcome (oracle a) = .inr (err a) := by
        have := hfail 0 (Nat.succ_pos n)
        simpa using this
      have hpos : 0 < n + 1 + f := by omega
      have hrec := ih (a + 1) (n + 1 + f) (s + delay * 2 ^ a)
        (by omega)
        (fun i hi => by
          have := hfail (i + 1) (by omega)
          simpa [Nat.add_comm, Nat.add_assoc, Nat.add_left_comm] using this)
        (by simpa [Nat.add_comm, Nat.add_assoc, Nat.add_left_comm] using hsucc)
      have hstep : requestLoop oracle delay a (n + 1 + f + 1) s =
          requestLoop oracle delay (a + 1) (n + 1 + f) (s + delay * 2 ^ a) := by
        simp [requestLoop, hfail0, hpos]
      rw [hstep, hrec, RunResult.mk.injEq]
      refine ⟨by omega, ?_, rfl⟩
      rw [Finset.sum_range_succ' (fun i => delay * 2 ^ (a + i)) n]
      have hshift : ∀ i, a + 1 + i = a + (i + 1) := fun i => by omega
      simp only [hshift, Nat.add_zero]
      ring

/-- If all `fuel` remaining attempts raise, the loop raises the last
attempt's exception after making all of them, sleeping after every failed
attempt except the last. -/
theorem requestLoop_exhaust (oracle : Nat → AttemptResult) (delay : Nat)
    (err : Nat → ErrKind) :
    ∀ (fuel a s : Nat), 0 < fuel →
      (∀ i, i < fuel → attemptOutcome (oracle (a + i)) = .inr (err (a + i))) →
      requestLoop oracle delay a fuel s =
        ⟨a + fuel, s + ∑ i in Finset.range (fuel - 1), delay * 2 ^ (a + i),
          .error (err (a + (fuel - 1)))⟩ := by
  intro fuel
  induction fuel with
  | zero => intro a s h; omega
  | succ f ih =>
      intro a s _ hfail
      have hfail0 : attemptOutcome (oracle a) = .inr (err a) := by
        have := hfail 0 (Nat.succ_pos f)
        simpa using this
      rcases Nat.eq_zero_or_pos f with hf | hf
      · subst hf
        simp [requestLoop, hfail0]
      · obtain ⟨g, rfl⟩ : ∃ g, f = g + 1 := ⟨f - 1, by omega⟩
        have hrec := ih (a + 1) (s + delay * 2 ^ a) hf
          (fun i hi => by
            have := hfail (i + 1) (by omega)
            simpa [Nat.add_comm, Nat.add_assoc, Nat.add_left_comm] using this)
        have hstep : requestLoop oracle delay a (g + 1 + 1) s =
            requestLoop oracle delay (a + 1) (g + 1) (s + delay * 2 ^ a) := by
          simp [requestLoop, hfail0, hf]
        rw [hstep, hrec, RunResult.mk.injEq]
        refine ⟨by omega, ?_, ?_⟩
        · simp only [Nat.add_sub_cancel]
          rw [Finset.sum_range_succ' (fun i => delay * 2 ^ (a + i)) g]
          have hshift : ∀ i, a + 1 + i = a + (i + 1) := fun i => by omega
          simp only [hshift, Nat.add_zero]
          ring
        · have hidx : a + 1 + (g + 1 - 1) = a + (g + 1 + 1 - 1) := by omega
          rw [hidx]

/-! ### Claim C2 — retry/backoff accounting -/

/-- C2: for `0 ≤ N < max_retries`, if `make_api_request` sees `N` consecutive
transient failures (connect-timeout, read-timeout, or generic transport
error) and then a success, it makes exactly `N + 1` attempts and sleeps a
total of `∑ i < N, delay * 2 ^ i`; and after `max_retries` consecutive
transient failures the final exception is raised after exactly `max_retries`
attempts with no sleep following the last attempt (total sleep
`∑ i < max_retries - 1, delay * 2 ^ i`). -/
theorem make_api_request_backoff (oracle : Nat → AttemptResult)
    (max_retries delay N : Nat) :
    (N < max_retries →
      (∀ i, i < N → isTransient (oracle i) = true) →
      ∀ j, attemptOutcome (oracle N) = .inl j →
      make_api_request oracle max_retries delay =
        ⟨N + 1, ∑ i in Finset.range N, delay * 2 ^ i, .success j⟩)
    ∧
    (0 < max_retries →
      (∀ i, i < max_retries → isTransient (oracle i) = true) →
      make_api_request oracle max_retries delay =
        ⟨max_retries, ∑ i in Finset.range (max_retries - 1), delay * 2 ^ i,
          .error (transientErr (oracle (max_retries - 1)))⟩) := by
  constructor
  · intro hN hfail j hsucc
    have h := requestLoop_success oracle delay
      (fun i => transientErr (oracle i)) j N 0 max_retries 0 hN
      (fun i hi => by
        simpa using attemptOutcome_of_transient (hfail i hi))
      (by simpa using hsucc)
    simpa [make_api_request] using h
  · intro hpos hfail
    have h := requestLoop_exhaust oracle delay
      (fun i => transientErr (oracle i)) max_retries 0 0 hpos
      (fun i hi => by
        simpa using attemptOutcome_of_transient (hfail i hi))
    simpa [make_api_request] using h

/-- An oracle that times out on attempts 0 and 1 and delivers valid JSON on
attempt 2. -/
def oracleTwoTimeouts : Nat → AttemptResult := fun i =>
  if i < 2 then .connectTimeout else .httpResponse 200 (some 7)

theorem make_api_request_backoff_witness :
    make_api_request oracleTwoTimeouts 3 2 = ⟨3, 6, .success 7⟩ ∧
    make_api_request (fun _ => AttemptResult.readTimeout) 3 2 =
      ⟨3, 6, .error .readTimeout⟩ := by
  have hsum : ∑ i in Finset.range 2, 2 * 2 ^ i = 6 := by decide
  constructor
  · have h := (make_api_request_backoff oracleTwoTimeouts 3 2 2).1
      (by decide) (fun i hi => by interval_cases i <;> decide) 7 (by decide)
    rw [h, hsum]
  · have h := (make_api_request_backoff (fun _ => .readTimeout) 3 2 2).2
      (by decide) (fun i _ => by decide)
    rw [h]
    norm_num [hsum, transientErr]

/-! ### Claim C4 — 4xx responses

The claim says a 4xx status other than 429 fails immediately with no retry
and no sleep.  In the code, `response.raise_for_status()` raises
`requests.exceptions.HTTPError`, a subclass of `RequestException`, so the
generic `except requests.exceptions.RequestException` branch catches it and
retries it with backoff exactly like a transient failure. -/

/-- C4 counterexample: with every attempt answering HTTP 404,
`make_api_request(url, params)` (defaults `max_retries=3`, `delay=2`) makes
3 attempts and sleeps 2 + 4 = 6 seconds in total — it does not fail
immediately on the first attempt with no backoff sleep. -/
theorem http404_retried_counterexample :
    (make_api_request (fun _ => .httpResponse 404 none) 3 2).attempts = 3 ∧
    (make_api_request (fun _ => .httpResponse 404 none) 3 2).totalSleep = 6 ∧
    ¬((make_api_request (fun _ => .httpResponse 404 none) 3 2).attempts = 1 ∧
      (make_api_request (fun _ => .httpResponse 404 none) 3 2).totalSleep = 0) := by
  decide

/-- C4 amended: an HTTP response with a 4xx status other than 429 raises
`HTTPError`, which the generic `RequestException` handler catches; the
request is retried with exponential backoff like a transient failure and the
error is raised only after `max_retries` attempts. -/
theorem make_api_request_4xx_retried (status : Nat) (body : Option Json)
    (max_retries delay : Nat) :
    400 ≤ status → status ≠ 429 → 0 < max_retries →
    make_api_request (fun _ => .httpResponse status body) max_retries delay =
      ⟨max_retries, ∑ i in Finset.range (max_retries - 1), delay * 2 ^ i,
        .error (.httpError status)⟩ := by
  intro h4 _ hpos
  have h := requestLoop_exhaust (fun _ => .httpResponse status body) delay
    (fun _ => .httpError status) max_retries 0 0 hpos
    (fun i _ => by simp [attemptOutcome, h4])
  simpa [make_api_request] using h

theorem make_api_request_4xx_retried_witness :
    make_api_request (fun _ => .httpResponse 404 none) 3 2 =
      ⟨3, 6, .error (.httpError 404)⟩ := by
  have h := make_api_request_4xx_retried 404 none 3 2
    (by decide) (by decide) (by decide)
  rw [h]
  norm_num [Finset.sum_range_succ]

/-! ### Claim C6 — malformed JSON

In `game.py` a decode failure is indeed fatal for the request: there is a
single `requests.get`, and both `except` clauses return `None`.  But in
`make_api_request` the body is decoded inside the `try:` block and
`requests.exceptions.JSONDecodeError` is a subclass of `RequestException`
(requests ≥ 2.27), so a malformed body is caught and retried like a
transient failure. -/

/-- C6 counterexample: with every attempt delivering HTTP 200 and a
malformed body, `make_api_request` (defaults `max_retries=3`, `delay=2`)
makes 3 attempts — not one attempt with zero additional attempts — and
sleeps in between. -/
theorem malformed_json_retried_counterexample :
    (make_api_request (fun _ => .httpResponse 200 none) 3 2).attempts = 3 ∧
    (make_api_request (fun _ => .httpResponse 200 none) 3 2).totalSleep = 6 ∧
    (make_api_request (fun _ => .httpResponse 200 none) 3 2).attempts ≠ 1 := by
  decide

/-- C6 amended: in `game.py`'s fetchers a decode failure on a delivered
response is fatal for that request with no retry (the single `requests.get`
returns `None`); in `make_api_request` the `JSONDecodeError` lands in the
generic `RequestException` handler, so the request is retried and the decode
error surfaces only after `max_retries` attempts. -/
theorem json_decode_error_handling (status : Nat) (max_retries delay : Nat) :
    status < 400 → 0 < max_retries →
    fetch_hydrated_game_data (.httpResponse status none) = none ∧
    make_api_request (fun _ => .httpResponse status none) max_retries delay =
      ⟨max_retries, ∑ i in Finset.range (max_retries - 1), delay * 2 ^ i,
        .error .jsonDecode⟩ := by
  intro hstatus hpos
  have hout : attemptOutcome (.httpResponse status none) = .inr .jsonDecode := by
    simp [attemptOutcome, Nat.not_le.mpr hstatus]
  constructor
  · simp [fetch_hydrated_game_data, hout]
  · have h := requestLoop_exhaust (fun _ => .httpResponse status none) delay
      (fun _ => .jsonDecode) max_retries 0 0 hpos (fun i _ => hout)
    simpa [make_api_request] using h

theorem json_decode_error_handling_witness :
    fetch_hydrated_game_data (.httpResponse 200 none) = none ∧
    make_api_request (fun _ => .httpResponse 200 none) 3 2 =
      ⟨3, 6, .error .jsonDecode⟩ := by
  have h := json_decode_error_handling 200 3 2 (by decide) (by decide)
  refine ⟨h.1, ?_⟩
  rw [h.2]
  norm_num [Finset.sum_range_succ]

/-! ## Embedding of `fetch_game_pks` (`src/fetch.py`)

One game of a schedule response, with the fields `fetch_game_pks` reads. -/
structure Game where
  gamePk : Nat
  gameType : String
  homeTeamId : Nat
  awayTeamId : Nat
  venueId : Nat
deriving DecidableEq, Repr

/-- One entry of the schedule response's `dates` array. -/
structure DateData where
  date : String
  games : List Game
deriving DecidableEq, Repr

/-- The `args` fields `fetch_game_pks` consults for filtering (season,
league, sport, and the date range only select which schedule the API
returns, and are absorbed into the schedule argument). -/
structure ScheduleArgs where
  regular_season : Bool
  include_postseason : Bool
  team_id : Option Nat
  venue_id : Option Nat
  home_only : Bool
  away_only : Bool
deriving DecidableEq, Repr

/-- Python truthiness of an optional integer argument (`if args.team_id:`
and the like): falsy when absent or zero. -/
def optTruthy : Option Nat → Bool
  | none => false
  | some n => n != 0

/-- The team / venue / home-only / away-only `continue` guards, identical in
both branches of `fetch_game_pks`.  `true` means the game is kept. -/
def passesCommonFilters (args : ScheduleArgs) (g : Game) : Bool :=
  !(optTruthy args.team_id &&
      !(args.team_id == some g.homeTeamId || args.team_id == some g.awayTeamId)) &&
  !(optTruthy args.venue_id && !(args.venue_id == some g.venueId)) &&
  !(args.home_only && optTruthy args.team_id && !(args.team_id == some g.homeTeamId)) &&
  !(args.away_only && optTruthy args.team_id && !(args.team_id == some g.awayTeamId))

/-- The `game_types` list: `"R"` when `args.regular_season`, then `"P"` when
`args.include_postseason`, defaulting to `["R"]` when empty. -/
def gameTypesOf (args : ScheduleArgs) : List String :=
  let ts := (if args.regular_season then ["R"] else []) ++
    (if args.include_postseason then ["P"] else [])
  if ts = [] then ["R"] else ts

/-- The manual game-type `continue` guards of the fallback branch:
`if args.regular_season and game_type != 'R': continue` then
`if args.include_postseason and game_type != 'P': if not args.regular_season:
continue`.  `true` means the game is kept. -/
def passesLocalTypeFilter (args : ScheduleArgs) (g : Game) : Bool :=
  if args.regular_season && g.gameType != "R" then false
  else if args.include_postseason && g.gameType != "P" && !args.regular_season then false
  else true

/-- Model of the schedule endpoint: `sched` is the league's underlying
season schedule; a request carrying `gameTypes=t` returns the same dates
with only the games of type `t`, and a request without the parameter returns
`sched` itself. -/
def apiScheduleResponse (sched : List DateData) (t : String) : List DateData :=
  sched.map (fun dd => ⟨dd.date, dd.games.filter (fun g => g.gameType == t)⟩)

/-- The supported-league branch of `fetch_game_pks`: one request per game
type with the `gameTypes` parameter, appending `(gamePk, date)` for every
game passing the team/venue filters. -/
def fetch_game_pks_supported (args : ScheduleArgs) (sched : List DateData) :
    List (Nat × String) :=
  (gameTypesOf args).flatMap (fun t =>
    (apiScheduleResponse sched t).flatMap (fun dd =>
      (dd.games.filter (passesCommonFilters args)).map
        (fun g => (g.gamePk, dd.date))))

/-- The problematic-league branch of `fetch_game_pks`: a single request
without the `gameTypes` parameter, with the game-type filter applied
locally after the team/venue filters. -/
def fetch_game_pks_fallback (args : ScheduleArgs) (sched : List DateData) :
    List (Nat × String) :=
  sched.flatMap (fun dd =>
    ((dd.games.filter (passesCommonFilters args)).filter
        (passesLocalTypeFilter args)).map
      (fun g => (g.gamePk, dd.date)))

/-! ### Claim C5 — fallback game-type filtering -/

/-- Both game-type flags set, no team/venue filters. -/
def argsBothTypes : ScheduleArgs := ⟨true, true, none, none, false, false⟩

/-- Regular season only, no team/venue filters. -/
def argsRegularOnly : ScheduleArgs := ⟨true, false, none, none, false, false⟩

/-- A one-date schedule holding one regular-season and one postseason
game. -/
def schedRP : List DateData :=
  [⟨"2024-10-20", [⟨101, "R", 1, 2, 5⟩, ⟨102, "P", 1, 2, 5⟩]⟩]

/-- C5 counterexample: with `--regular_season --include_postseason`, the
per-game-type branch returns the postseason game 102 but the fallback branch
drops it (its first guard `args.regular_season and game_type != 'R'` skips
every non-`'R'` game), so the two branches do not yield the same set of
`(gamePk, date)` pairs for the same schedule. -/
theorem fallback_drops_postseason_counterexample :
    (102, "2024-10-20") ∈ fetch_game_pks_supported argsBothTypes schedRP ∧
    (102, "2024-10-20") ∉ fetch_game_pks_fallback argsBothTypes schedRP := by
  decide

theorem passesLocalTypeFilter_regular (args : ScheduleArgs)
    (hr : args.regular_season = true) (hp : args.include_postseason = false) :
    passesLocalTypeFilter args = fun g => g.gameType == "R" := by
  funext g
  cases h : g.gameType == "R" <;> simp [passesLocalTypeFilter, bne, hr, hp, h]

theorem passesLocalTypeFilter_postseason (args : ScheduleArgs)
    (hr : args.regular_season = false) (hp : args.include_postseason = true) :
    passesLocalTypeFilter args = fun g => g.gameType == "P" := by
  funext g
  cases h : g.gameType == "P" <;> simp [passesLocalTypeFilter, bne, hr, hp, h]

/-- The parameterized request for one game type yields the same pairs as the
parameterless request followed by a local filter equivalent to that game
type. -/
theorem pairsForType_eq_fallback (args : ScheduleArgs) (t : String)
    (hloc : passesLocalTypeFilter args = fun g => g.gameType == t)
    (sched : List DateData) :
    (apiScheduleResponse sched t).flatMap (fun dd =>
        (dd.games.filter (passesCommonFilters args)).map
          (fun g => (g.gamePk, dd.date))) =
      fetch_game_pks_fallback args sched := by
  induction sched with
  | nil => rfl
  | cons dd rest ih =>
      simp only [apiScheduleResponse, fetch_game_pks_fallback, List.map_cons,
        List.flatMap_cons] at *
      rw [ih]
      congr 1
      rw [hloc, List.filter_comm]

/-- C5 amended: when exactly one of the `regular_season` /
`include_postseason` flags is set, the fallback branch (no `gameTypes`
parameter, local filtering) yields exactly the `(gamePk, date)` pairs of the
per-game-type branch; with both flags set the fallback drops postseason
games, and with neither set it keeps every game type while the
per-game-type branch requests only `"R"`. -/
theorem fetch_game_pks_fallback_equiv (args : ScheduleArgs)
    (sched : List DateData)
    (h : args.regular_season ≠ args.include_postseason) :
    fetch_game_pks_supported args sched = fetch_game_pks_fallback args sched := by
  cases hr : args.regular_season <;> cases hp : args.include_postseason
  · simp [hr, hp] at h
  · have hloc := passesLocalTypeFilter_postseason args hr hp
    simp only [fetch_game_pks_supported, gameTypesOf, hr, hp]
    simpa using pairsForType_eq_fallback args "P" hloc sched
  · have hloc := passesLocalTypeFilter_regular args hr hp
    simp only [fetch_game_pks_supported, gameTypesOf, hr, hp]
    simpa using pairsForType_eq_fallback args "R" hloc sched
  · simp [hr, hp] at h

theorem fetch_game_pks_fallback_equiv_witness :
    argsRegularOnly.regular_season ≠ argsRegularOnly.include_postseason ∧
    fetch_game_pks_supported argsRegularOnly schedRP =
      fetch_game_pks_fallback argsRegularOnly schedRP :=
  ⟨by decide, fetch_game_pks_fallback_equiv argsRegularOnly schedRP (by decide)⟩

/-! ## Numeric helpers shared by the aggregators -/

/-- A Python float as the aggregators observe it: a finite value, `inf`
(`float('inf')`), or `nan` (`np.nan`). -/
inductive PyFloat where
  | val (x : ℚ)
  | inf
  | nan
deriving DecidableEq, Repr

/-- Python `int(x)` on a float value: truncation toward zero (the floor for
a nonnegative value, the ceiling for a negative one). -/
def pyInt (q : ℚ) : ℤ :=
  if 0 ≤ q then ⌊q⌋ else ⌈q⌉

/-- Round to the nearest integer, ties to even (Python `round`). -/
def roundHalfEven (q : ℚ) : ℤ :=
  let n := ⌊q⌋
  let r := q - (n : ℚ)
  if r < 1/2 then n
  else if 1/2 < r then n + 1
  else if Even n then n else n + 1

/-- Python `round(x, ndigits)`, modelled on the exact rational value of
`x`. -/
def pyRound (ndigits : Nat) (x : ℚ) : ℚ :=
  (roundHalfEven (x * 10 ^ ndigits) : ℚ) / 10 ^ ndigits

/-! ## Embedding of the hitter aggregators
(`src/hitting_metrics_pbp.py`, `src/baseball_metrics.py`)

One row of `merged_hitters_boxscore_all.csv`, with the columns the two
aggregators read.  The `date` column is the day ordinal after
`pd.to_datetime` (only its ordering matters). -/
structure HitterRow where
  gamePk : Nat
  playerId : Nat
  date : Nat
  side : String
  teamId : Nat
  position : String
  runs : Nat
  doubles : Nat
  triples : Nat
  homeRuns : Nat
  strikeOuts : Nat
  baseOnBalls : Nat
  intentionalWalks : Nat
  hits : Nat
  hitByPitch : Nat
  atBats : Nat
  caughtStealing : Nat
  stolenBases : Nat
  groundIntoDoublePlay : Nat
  plateAppearances : Nat
  totalBases : Nat
  rbi : Nat
  leftOnBase : Nat
  sacBunts : Nat
  sacFlies : Nat
deriving DecidableEq, Repr

/-- Python truthiness of an optional string argument (`if side:`): falsy
when absent or empty. -/
def optStrTruthy : Option String → Bool
  | none => false
  | some s => s != ""

/-- The row filter shared verbatim by `calculate_hitter_metrics` and
`calculate_hitter_metrics_from_boxscore`: player id and date range, then the
optional `side` / `team_id` / `position` filters guarded by Python
truthiness. -/
def filterHitterRows (df : List HitterRow) (player_id : Nat)
    (start_date end_date : Nat) (side : Option String) (team_id : Option Nat)
    (position : Option String) : List HitterRow :=
  let filtered := df.filter (fun r =>
    r.playerId == player_id && decide (start_date ≤ r.date) &&
      decide (r.date ≤ end_date))
  let filtered :=
    match side with
    | some s => if s != "" then filtered.filter (fun r => r.side == s) else filtered
    | none => filtered
  let filtered :=
    match team_id with
    | some t => if t != 0 then filtered.filter (fun r => r.teamId == t) else filtered
    | none => filtered
  match position with
  | some p => if p != "" then filtered.filter (fun r => r.position == p) else filtered
  | none => filtered

/-- Sum of one counting-stat column over a row set. -/
def sumBy (rows : List HitterRow) (f : HitterRow → Nat) : Nat :=
  (rows.map f).sum

/-- `filtered_df.groupby('gamePk')['plateAppearances'].idxmax()` for one
group: the first row of the group attaining the maximal plate-appearance
count (pandas `idxmax` returns the first index of the maximum). -/
def pickMaxPA : List HitterRow → Option HitterRow
  | [] => none
  | r :: rs =>
      match pickMaxPA rs with
      | none => some r
      | some m => if r.plateAppearances < m.plateAppearances then some m else some r

/-- The distinct values of a list in order of first appearance.  (pandas
`groupby` lists group keys in sorted order; since every aggregate taken over
the selected rows is order-invariant, the enumeration order of the keys is
immaterial.) -/
def firstOccKeys : List Nat → List Nat
  | [] => []
  | g :: gs => g :: (firstOccKeys gs).filter (fun g' => g' != g)

/-- The rows of one `gamePk` group, in row order. -/
def rowsForGame (rows : List HitterRow) (g : Nat) : List HitterRow :=
  rows.filter (fun r => r.gamePk == g)

/-- Steps 2 of `calculate_hitter_metrics_from_boxscore`: one representative
row per `gamePk` — the first row with maximal `plateAppearances` in the
group (`idxmax`), then `filtered_df.loc[...]`.  The `.dropna()` guards
against a `NaN` plate-appearance column and has no counterpart for total
`Nat` columns. -/
def dedupByGame (rows : List HitterRow) : List HitterRow :=
  (firstOccKeys (rows.map (·.gamePk))).filterMap
    (fun g => pickMaxPA (rowsForGame rows g))

/-- The metrics dict built by `calculate_hitter_metrics_from_boxscore`. -/
structure HitterMetricsBX where
  AVG : ℚ
  OBP : ℚ
  SLG : ℚ
  OPS : ℚ
  PlateAppearances : Nat
  AtBats : Nat
  Hits : Nat
  Runs : Nat
  RBI : Nat
  Doubles : Nat
  Triples : Nat
  HomeRuns : Nat
  Walks : Nat
  Strikeouts : Nat
  StolenBases : Nat
  ISO : ℚ
  BBK : PyFloat
  SBpct : ℚ
  HRpct : ℚ
  Kpct : ℚ
  BBpct : ℚ
deriving DecidableEq, Repr

/-- Steps 3–4 of `calculate_hitter_metrics_from_boxscore`: sum the counting
stats of the selected rows, then derive the rate stats with the
zero-denominator guards of the source (`if at_bats > 0 else 0`, …;
`BB/K` is `walks / strikeouts` when strikeouts are positive, `float('inf')`
when strikeouts are zero and walks positive, else `0`). -/
def computeHitterMetricsBX (rows : List HitterRow) : HitterMetricsBX :=
  let at_bats := sumBy rows (·.atBats)
  let hits := sumBy rows (·.hits)
  let walks := sumBy rows (·.baseOnBalls)
  let hbp := sumBy rows (·.hitByPitch)
  let sac_flies := sumBy rows (·.sacFlies)
  let plate_appearances := sumBy rows (·.plateAppearances)
  let total_bases := sumBy rows (·.totalBases)
  let strikeouts := sumBy rows (·.strikeOuts)
  let stolen_bases := sumBy rows (·.stolenBases)
  let caught_stealing := sumBy rows (·.caughtStealing)
  let home_runs := sumBy rows (·.homeRuns)
  let avg : ℚ := if 0 < at_bats then (hits : ℚ) / (at_bats : ℚ) else 0
  let obp_denominator := at_bats + walks + hbp + sac_flies
  let obp : ℚ := if 0 < obp_denominator
    then ((hits : ℚ) + (walks : ℚ) + (hbp : ℚ)) / (obp_denominator : ℚ) else 0
  let slg : ℚ := if 0 < at_bats then (total_bases : ℚ) / (at_bats : ℚ) else 0
  let sb_attempts := stolen_bases + caught_stealing
  { AVG := avg
    OBP := obp
    SLG := slg
    OPS := obp + slg
    PlateAppearances := plate_appearances
    AtBats := at_bats
    Hits := hits
    Runs := sumBy rows (·.runs)
    RBI := sumBy rows (·.rbi)
    Doubles := sumBy rows (·.doubles)
    Triples := sumBy rows (·.triples)
    HomeRuns := home_runs
    Walks := walks
    Strikeouts := strikeouts
    StolenBases := stolen_bases
    ISO := slg - avg
    BBK := if 0 < strikeouts then .val ((walks : ℚ) / (strikeouts : ℚ))
      else if 0 < walks then .inf else .val 0
    SBpct := if 0 < sb_attempts then (stolen_bases : ℚ) / (sb_attempts : ℚ) else 0
    HRpct := if 0 < plate_appearances
      then (home_runs : ℚ) / (plate_appearances : ℚ) else 0
    Kpct := if 0 < plate_appearances
      then (strikeouts : ℚ) / (plate_appearances : ℚ) else 0
    BBpct := if 0 < plate_appearances
      then (walks : ℚ) / (plate_appearances : ℚ) else 0 }

/-- Result of `calculate_hitter_metrics_from_boxscore`: the `{"error": …}`
dict (missing file), a `{"message": …}` dict (no data), or the metrics
dict. -/
inductive HitterResultBX where
  | error (msg : String)
  | message (msg : String)
  | metrics (m : HitterMetricsBX)
deriving DecidableEq, Repr

/-- `calculate_hitter_metrics_from_boxscore` of `hitting_metrics_pbp.py`.
`fileExists` abstracts whether `pd.read_csv` finds
`output/merged_hitters_boxscore_all.csv` (the `except FileNotFoundError`
branch); `df` is the parsed file. -/
def calculate_hitter_metrics_from_boxscore (fileExists : Bool)
    (df : List HitterRow) (player_id : Nat) (start_date end_date : Nat)
    (side : Option String) (team_id : Option Nat) (position : Option String) :
    HitterResultBX :=
  if !fileExists then
    .error "The data file 'merged_hitters_boxscore_all.csv' was not found."
  else
    let filtered_df := filterHitterRows df player_id start_date end_date
      side team_id position
    if filtered_df.isEmpty then
      .message ("No data found for player " ++ toString player_id ++
        " in the selected timeframe.")
    else
      let deduplicated_df := dedupByGame filtered_df
      if deduplicated_df.isEmpty then
        .message ("No games with plate appearances found for player " ++
          toString player_id ++ " in the selected timeframe.")
      else
        .metrics (computeHitterMetricsBX deduplicated_df)

/-- The metrics dict built by `baseball_metrics.calculate_hitter_metrics`. -/
structure HitterMetricsBM where
  AVG : ℚ
  OBP : ℚ
  SLG : ℚ
  OPS : ℚ
  RBI : Nat
  Runs : Nat
  Doubles : Nat
  Triples : Nat
  HomeRuns : Nat
  StolenBases : Nat
  BBK : PyFloat
  SBpct : ℚ
  ISO : ℚ
  HRpct : ℚ
  Kpct : ℚ
  BBpct : ℚ
deriving DecidableEq, Repr

/-- The aggregation of `baseball_metrics.calculate_hitter_metrics`: sums are
taken over **all** filtered rows (this version has no per-game
deduplication step); the summed `groundIntoDoublePlay`, `leftOnBase`,
`intentionalWalks` and `sacBunts` columns feed no derived metric. -/
def computeHitterMetricsBM (rows : List HitterRow) : HitterMetricsBM :=
  let at_bats := sumBy rows (·.atBats)
  let hits := sumBy rows (·.hits)
  let walks := sumBy rows (·.baseOnBalls)
  let hbp := sumBy rows (·.hitByPitch)
  let sac_flies := sumBy rows (·.sacFlies)
  let plate_appearances := sumBy rows (·.plateAppearances)
  let total_bases := sumBy rows (·.totalBases)
  let strikeouts := sumBy rows (·.strikeOuts)
  let stolen_bases := sumBy rows (·.stolenBases)
  let caught_stealing := sumBy rows (·.caughtStealing)
  let home_runs := sumBy rows (·.homeRuns)
  let avg : ℚ := if 0 < at_bats then (hits : ℚ) / (at_bats : ℚ) else 0
  let obp_denominator := at_bats + walks + hbp + sac_flies
  let obp : ℚ := if 0 < obp_denominator
    then ((hits : ℚ) + (walks : ℚ) + (hbp : ℚ)) / (obp_denominator : ℚ) else 0
  let slg : ℚ := if 0 < at_bats then (total_bases : ℚ) / (at_bats : ℚ) else 0
  let sb_attempts := stolen_bases + caught_stealing
  { AVG := avg
    OBP := obp
    SLG := slg
    OPS := obp + slg
    RBI := sumBy rows (·.rbi)
    Runs := sumBy rows (·.runs)
    Doubles := sumBy rows (·.doubles)
    Triples := sumBy rows (·.triples)
    HomeRuns := home_runs
    StolenBases := stolen_bases
    BBK := if 0 < strikeouts then .val ((walks : ℚ) / (strikeouts : ℚ))
      else if 0 < walks then .inf else .val 0
    SBpct := if 0 < sb_attempts then (stolen_bases : ℚ) / (sb_attempts : ℚ) else 0
    ISO := slg - avg
    HRpct := if 0 < plate_appearances
      then (home_runs : ℚ) / (plate_appearances : ℚ) else 0
    Kpct := if 0 < plate_appearances
      then (strikeouts : ℚ) / (plate_appearances : ℚ) else 0
    BBpct := if 0 < plate_appearances
      then (walks : ℚ) / (plate_appearances : ℚ) else 0 }

/-- Result of `baseball_metrics.calculate_hitter_metrics`.  This function
wraps `pd.read_csv` in no `try`, so a missing data file raises
`FileNotFoundError` out of the function; there is no error or no-data
value. -/
inductive HitterResultBM where
  | raisesFileNotFound
  | metrics (m : HitterMetricsBM)
deriving DecidableEq, Repr

/-- `baseball_metrics.calculate_hitter_metrics`: filter, sum every filtered
row, derive.  No file-existence guard, no empty-filter guard, no per-game
deduplication. -/
def calculate_hitter_metrics (fileExists : Bool) (df : List HitterRow)
    (player_id : Nat) (start_date end_date : Nat) (side : Option String)
    (team_id : Option Nat) (position : Option String) : HitterResultBM :=
  if !fileExists then .raisesFileNotFound
  else .metrics (computeHitterMetricsBM
    (filterHitterRows df player_id start_date end_date side team_id position))

/-! ## Embedding of `src/pitching_metrics_pbp.py` and `src/fip-calculator.py` -/

/-- The binary64 value of the literal `0.1`
(`0x1.999999999999ap-4 = 3602879701896397 · 2⁻⁵⁵`). -/
def dbl01 : ℚ := 3602879701896397 / 2 ^ 55

/-- The binary64 value of the literal `0.2` (twice `dbl01`). -/
def dbl02 : ℚ := 3602879701896397 / 2 ^ 54

/-- The binary64 value of the literal `1.1`
(`0x1.199999999999ap+0 = 4953959590107546 · 2⁻⁵²`). -/
def dbl11 : ℚ := 4953959590107546 / 2 ^ 52

/-- `convert_ip_to_outs(ip)` as the interpreter runs it.  `ip` is the exact
rational value of the binary64 float obtained from the CSV cell.
`whole = int(float(ip))` truncates toward zero, and
`fraction = float(ip) - whole` is exact in binary64 for any realistic
innings count (the result needs at most the 53 significand bits of `ip`),
so modelling the subtraction exactly is faithful; the `fraction == 0.1` /
`fraction == 0.2` comparisons are against the binary64 values of those
literals.  The `np.isnan` guard and the bare `except: return 0`
(unparseable cell) have no counterpart for a rational input. -/
def convert_ip_to_outs (ip : ℚ) : ℤ :=
  let whole := pyInt ip
  let fraction := ip - (whole : ℚ)
  if fraction = dbl01 then whole * 3 + 1
  else if fraction = dbl02 then whole * 3 + 2
  else whole * 3

/-- The exact-arithmetic reading of `convert_ip_to_outs` — the semantics
claim C10 ascribes to it, with the fractional-part tests taken over the
decimal values: `3·whole + 1` for a fractional part of exactly `0.1`,
`3·whole + 2` for exactly `0.2`, `3·whole` otherwise, and `0` for
unparseable input (`none`, the `except: return 0` branch). -/
def convert_ip_to_outs_exact (ip : Option ℚ) : ℤ :=
  match ip with
  | none => 0
  | some ip =>
      let whole := pyInt ip
      let fraction := ip - (whole : ℚ)
      if fraction = 1/10 then whole * 3 + 1
      else if fraction = 2/10 then whole * 3 + 2
      else whole * 3

/-- One row of the pitcher box-score file, with the columns
`calculate_metrics` reads.  `inningsPitched` is the binary64 value of the
CSV cell. -/
structure PitcherRow where
  playerId : Nat
  teamId : Nat
  date : Nat
  gamesStarted : Nat
  battersFaced : Nat
  wins : Nat
  losses : Nat
  saves : Nat
  holds : Nat
  blownSaves : Nat
  homeRuns : Nat
  baseOnBalls : Nat
  strikeOuts : Nat
  hits : Nat
  earnedRuns : Nat
  hitByPitch : Nat
  wildPitches : Nat
  balks : Nat
  inningsPitched : ℚ
  numberOfPitches : Nat
  balls : Nat
  strikes : Nat
deriving DecidableEq, Repr

/-- Sum of one pitcher counting-stat column. -/
def sumByP (rows : List PitcherRow) (f : PitcherRow → Nat) : Nat :=
  (rows.map f).sum

/-- The dict returned by `pitching_metrics_pbp.calculate_metrics`. -/
structure PitcherMetrics where
  ERA : ℚ
  WHIP : ℚ
  G : Nat
  GS : Nat
  TBF : Nat
  Wins : Nat
  Losses : Nat
  Saves : Nat
  Holds : Nat
  BS : Nat
  InningsPitched : ℚ
  HR : Nat
  Strikeouts : Nat
  Walks : Nat
  HBP : Nat
  WP : Nat
  BK : Nat
  Pitches : Nat
  Balls : Nat
  Strikes : Nat
  K9 : ℚ
  BB9 : ℚ
  H9 : ℚ
  HR9 : ℚ
  KBB : PyFloat
  Kpct : ℚ
  BBpct : ℚ
  KminusBBpct : ℚ
  BIP : ℤ
  HRperBIP : ℚ
  BABIP : ℚ
deriving DecidableEq, Repr

/-- `pitching_metrics_pbp.calculate_metrics(pitcher_df)`.  The aggregate
innings denominator is `ip_full = round(outs / 3, 1)` where `outs` sums
`convert_ip_to_outs` over the `inningsPitched` column (the naive
`pitcher_df["inningsPitched"].sum()` is computed by the source but feeds no
returned entry).  `if ip_full` / `if BB` / `if TBF` / `if BIP` are Python
truthiness tests (≠ 0); `K/BB` is `np.nan` when the walk sum is zero.  In
this model every row carries the `numberOfPitches` / `balls` / `strikes`
columns, so the `pitcher_df.get(…)` defaults are never taken. -/
def calculate_metrics (pitcher_df : List PitcherRow) : PitcherMetrics :=
  let G := pitcher_df.length
  let GS := sumByP pitcher_df (·.gamesStarted)
  let TBF := sumByP pitcher_df (·.battersFaced)
  let W := sumByP pitcher_df (·.wins)
  let L := sumByP pitcher_df (·.losses)
  let SV := sumByP pitcher_df (·.saves)
  let HLD := sumByP pitcher_df (·.holds)
  let BS := sumByP pitcher_df (·.blownSaves)
  let HR := sumByP pitcher_df (·.homeRuns)
  let BB := sumByP pitcher_df (·.baseOnBalls)
  let SO := sumByP pitcher_df (·.strikeOuts)
  let H := sumByP pitcher_df (·.hits)
  let ER := sumByP pitcher_df (·.earnedRuns)
  let HBP := sumByP pitcher_df (·.hitByPitch)
  let WP := sumByP pitcher_df (·.wildPitches)
  let BK := sumByP pitcher_df (·.balks)
  let Pitches := sumByP pitcher_df (·.numberOfPitches)
  let Balls := sumByP pitcher_df (·.balls)
  let Strikes := sumByP pitcher_df (·.strikes)
  let outs : ℤ := (pitcher_df.map (fun r => convert_ip_to_outs r.inningsPitched)).sum
  let ip_full : ℚ := pyRound 1 ((outs : ℚ) / 3)
  let K_pct : ℚ := if TBF ≠ 0 then pyRound 3 ((SO : ℚ) / (TBF : ℚ)) else 0
  let BB_pct : ℚ := if TBF ≠ 0 then pyRound 3 ((BB : ℚ) / (TBF : ℚ)) else 0
  let BIP : ℤ := (TBF : ℤ) - ((SO : ℤ) + (BB : ℤ) + (HBP : ℤ) + (HR : ℤ))
  { ERA := if ip_full ≠ 0 then pyRound 2 (((ER : ℚ) * 9) / ip_full) else 0
    WHIP := if ip_full ≠ 0 then pyRound 3 (((BB : ℚ) + (H : ℚ)) / ip_full) else 0
    G := G
    GS := GS
    TBF := TBF
    Wins := W
    Losses := L
    Saves := SV
    Holds := HLD
    BS := BS
    InningsPitched := ip_full
    HR := HR
    Strikeouts := SO
    Walks := BB
    HBP := HBP
    WP := WP
    BK := BK
    Pitches := Pitches
    Balls := Balls
    Strikes := Strikes
    K9 := if ip_full ≠ 0 then pyRound 2 (((SO : ℚ) * 9) / ip_full) else 0
    BB9 := if ip_full ≠ 0 then pyRound 2 (((BB : ℚ) * 9) / ip_full) else 0
    H9 := if ip_full ≠ 0 then pyRound 2 (((H : ℚ) * 9) / ip_full) else 0
    HR9 := if ip_full ≠ 0 then pyRound 2 (((HR : ℚ) * 9) / ip_full) else 0
    KBB := if BB ≠ 0 then .val (pyRound 2 ((SO : ℚ) / (BB : ℚ))) else .nan
    Kpct := K_pct
    BBpct := BB_pct
    KminusBBpct := pyRound 3 (K_pct - BB_pct)
    BIP := BIP
    HRperBIP := if BIP ≠ 0 then pyRound 3 ((HR : ℚ) / (BIP : ℚ)) else 0
    BABIP := if BIP ≠ 0 then pyRound 3 (((H : ℚ) - (HR : ℚ)) / (BIP : ℚ)) else 0 }

/-- `fip-calculator.calculate_fip_without_hbp`: `np.nan` when `ip == 0`,
else `((13·HR) + (3·BB) − (2·K)) / IP + constant`. -/
def calculate_fip_without_hbp (hr bb k ip fip_constant : ℚ) : PyFloat :=
  if ip = 0 then .nan
  else .val (((13 * hr) + (3 * bb) - (2 * k)) / ip + fip_constant)

/-! ### Deduplication lemmas -/

theorem pickMaxPA_mem (l : List HitterRow) (m : HitterRow)
    (h : pickMaxPA l = some m) : m ∈ l := by
  induction l generalizing m with
  | nil => simp [pickMaxPA] at h
  | cons r rs ih =>
      rw [pickMaxPA] at h
      cases hp : pickMaxPA rs with
      | none =>
          rw [hp] at h
          simp only [Option.some.injEq] at h
          simp [← h]
      | some m' =>
          rw [hp] at h
          by_cases hlt : r.plateAppearances < m'.plateAppearances
          · simp only [if_pos hlt, Option.some.injEq] at h
            exact List.mem_cons_of_mem r (ih m (by rw [hp, h]))
          · simp only [if_neg hlt, Option.some.injEq] at h
            simp [← h]

theorem pickMaxPA_eq_none (l : List HitterRow) :
    pickMaxPA l = none ↔ l = [] := by
  cases l with
  | nil => simp [pickMaxPA]
  | cons r rs =>
      rw [pickMaxPA]
      cases hp : pickMaxPA rs
      · simp
      · simp only [ne_eq, List.cons_ne_nil, not_false_eq_true, iff_false]
        split <;> simp

theorem pickMaxPA_le (l : List HitterRow) (m : HitterRow)
    (h : pickMaxPA l = some m) :
    ∀ r ∈ l, r.plateAppearances ≤ m.plateAppearances := by
  induction l generalizing m with
  | nil => simp [pickMaxPA] at h
  | cons r rs ih =>
      rw [pickMaxPA] at h
      cases hp : pickMaxPA rs with
      | none =>
          simp only [hp, Option.some.injEq] at h
          have : rs = [] := (pickMaxPA_eq_none rs).mp hp
          subst this
          simp [← h]
      | some m' =>
          intro x hx
          rcases List.mem_cons.mp hx with rfl | hx'
          · by_cases hlt : x.plateAppearances < m'.plateAppearances
            · simp only [hp, if_pos hlt, Option.some.injEq] at h
              exact le_of_lt (h ▸ hlt)
            · simp only [hp, if_neg hlt, Option.some.injEq] at h
              exact le_of_eq (by rw [h])
          · by_cases hlt : r.plateAppearances < m'.plateAppearances
            · simp only [hp, if_pos hlt, Option.some.injEq] at h
              exact h ▸ ih m' hp x hx'
            · simp only [hp, if_neg hlt, Option.some.injEq] at h
              exact le_trans (ih m' hp x hx') (le_trans (Nat.not_lt.mp hlt)
                (le_of_eq (by rw [h])))

theorem pickMaxPA_isSome (l : List HitterRow) (h : l ≠ []) :
    ∃ m, pickMaxPA l = some m := by
  cases l with
  | nil => exact absurd rfl h
  | cons r rs =>
      rw [pickMaxPA]
      cases hp : pickMaxPA rs with
      | none => exact ⟨r, rfl⟩
      | some m' =>
          by_cases hlt : r.plateAppearances < m'.plateAppearances
          · exact ⟨m', by simp only [if_pos hlt]⟩
          · exact ⟨r, by simp only [if_neg hlt]⟩

theorem mem_rowsForGame (rows : List HitterRow) (g : Nat) (r : HitterRow) :
    r ∈ rowsForGame rows g ↔ r ∈ rows ∧ r.gamePk = g := by
  simp [rowsForGame, List.mem_filter]

theorem mem_firstOccKeys (l : List Nat) (g : Nat) :
    g ∈ firstOccKeys l ↔ g ∈ l := by
  induction l with
  | nil => simp [firstOccKeys]
  | cons a as ih =>
      by_cases hg : g = a
      · simp [firstOccKeys, hg]
      · simp [firstOccKeys, List.mem_filter, hg, ih, bne]

theorem firstOccKeys_nodup (l : List Nat) : (firstOccKeys l).Nodup := by
  induction l with
  | nil => simp [firstOccKeys]
  | cons a as ih =>
      rw [firstOccKeys]
      refine List.nodup_cons.mpr ⟨?_, ih.filter _⟩
      intro hmem
      simp [List.mem_filter, bne] at hmem

theorem dedupByGame_mem (rows : List HitterRow) (r : HitterRow)
    (h : r ∈ dedupByGame rows) :
    r ∈ rows ∧ ∀ r' ∈ rows, r'.gamePk = r.gamePk →
      r'.plateAppearances ≤ r.plateAppearances := by
  simp only [dedupByGame, List.mem_filterMap] at h
  obtain ⟨g, _, hpick⟩ := h
  have hmem := (mem_rowsForGame rows g r).mp (pickMaxPA_mem _ _ hpick)
  refine ⟨hmem.1, ?_⟩
  intro r' hr' hgk
  exact pickMaxPA_le _ _ hpick r'
    ((mem_rowsForGame rows g r').mpr ⟨hr', by rw [hgk, hmem.2]⟩)

theorem dedupByGame_map_gamePk (rows : List HitterRow) :
    (dedupByGame rows).map (·.gamePk) = firstOccKeys (rows.map (·.gamePk)) := by
  suffices h : ∀ ks : List Nat, (∀ g ∈ ks, g ∈ rows.map (·.gamePk)) →
      (ks.filterMap (fun g => pickMaxPA (rowsForGame rows g))).map (·.gamePk) = ks by
    exact h _ (fun g hg => (mem_firstOccKeys _ g).mp hg)
  intro ks
  induction ks with
  | nil => intro; rfl
  | cons g gs ih =>
      intro hks
      have hg := hks g (List.mem_cons_self g gs)
      have hne : rowsForGame rows g ≠ [] := by
        simp only [List.mem_map] at hg
        obtain ⟨r, hr, hrg⟩ := hg
        intro hnil
        have : r ∈ rowsForGame rows g := (mem_rowsForGame rows g r).mpr ⟨hr, hrg⟩
        rw [hnil] at this
        simp at this
      obtain ⟨m, hm⟩ := pickMaxPA_isSome _ hne
      have hmg : m.gamePk = g :=
        ((mem_rowsForGame rows g m).mp (pickMaxPA_mem _ _ hm)).2
      simp only [List.filterMap_cons, hm, List.map_cons, hmg]
      rw [ih (fun k hk => hks k (List.mem_cons_of_mem g hk))]

theorem dedupByGame_ne_nil (rows : List HitterRow) (h : rows ≠ []) :
    dedupByGame rows ≠ [] := by
  intro hnil
  have hmap := dedupByGame_map_gamePk rows
  rw [hnil] at hmap
  cases rows with
  | nil => exact h rfl
  | cons r rs =>
      rw [List.map_cons, firstOccKeys] at hmap
      simp at hmap

/-! ### Claim C1 — one representative row per game -/

/-- A player's final stat line for game 1: 4 plate appearances, 4 at bats,
2 hits, 2 total bases. -/
def rowA : HitterRow :=
  { gamePk := 1, playerId := 10, date := 50, side := "home", teamId := 3,
    position := "C", runs := 0, doubles := 0, triples := 0, homeRuns := 0,
    strikeOuts := 0, baseOnBalls := 0, intentionalWalks := 0, hits := 2,
    hitByPitch := 0, atBats := 4, caughtStealing := 0, stolenBases := 0,
    groundIntoDoublePlay := 0, plateAppearances := 4, totalBases := 2,
    rbi := 0, leftOnBase := 0, sacBunts := 0, sacFlies := 0 }

/-- A second, partial row of the same player for the same game 1 (e.g. a
substitution line): 1 plate appearance, 1 at bat, 1 hit. -/
def rowB : HitterRow :=
  { gamePk := 1, playerId := 10, date := 50, side := "home", teamId := 3,
    position := "C", runs := 0, doubles := 0, triples := 0, homeRuns := 0,
    strikeOuts := 0, baseOnBalls := 0, intentionalWalks := 0, hits := 1,
    hitByPitch := 0, atBats := 1, caughtStealing := 0, stolenBases := 0,
    groundIntoDoublePlay := 0, plateAppearances := 1, totalBases := 1,
    rbi := 0, leftOnBase := 0, sacBunts := 0, sacFlies := 0 }

/-- Two rows of player 10 for the same game. -/
def dbDup : List HitterRow := [rowA, rowB]

/-- C1 counterexample: `baseball_metrics.calculate_hitter_metrics` is an
aggregation of hitter box-score rows (cited by the claim) that sums every
filtered row with no per-game deduplication: on two rows for the same game
with plate appearances 4 and 1, its AVG is (2+1)/(4+1) = 3/5, whereas only
the maximal row contributing would give 2/4 — the smaller row's hits and at
bats enter the sums. -/
theorem no_dedup_in_calculate_hitter_metrics :
    calculate_hitter_metrics true dbDup 10 0 100 none none none =
      .metrics (computeHitterMetricsBM dbDup) ∧
    (computeHitterMetricsBM dbDup).AVG = 3/5 ∧
    (computeHitterMetricsBM (dedupByGame dbDup)).AVG = 1/2 ∧
    (computeHitterMetricsBM dbDup).AVG ≠
      (computeHitterMetricsBM (dedupByGame dbDup)).AVG := by
  with_unfolding_all decide

/-- C1 amended: the deduplicating aggregation holds for
`calculate_hitter_metrics_from_boxscore` — on a nonempty filtered row set it
sums exactly the deduplicated rows, which comprise one representative per
distinct game, each a filtered row of that game with maximal plate
appearances, covering exactly the games present; `calculate_hitter_metrics`
in `baseball_metrics.py` instead sums every filtered row
(see the counterexample). -/
theorem boxscore_dedup_spec (df : List HitterRow) (player_id : Nat)
    (start_date end_date : Nat) (side : Option String) (team_id : Option Nat)
    (position : Option String)
    (hne : filterHitterRows df player_id start_date end_date side team_id
      position ≠ []) :
    calculate_hitter_metrics_from_boxscore true df player_id start_date
        end_date side team_id position =
      .metrics (computeHitterMetricsBX (dedupByGame (filterHitterRows df
        player_id start_date end_date side team_id position))) ∧
    (∀ r ∈ dedupByGame (filterHitterRows df player_id start_date end_date
        side team_id position),
      r ∈ filterHitterRows df player_id start_date end_date side team_id
        position ∧
      ∀ r' ∈ filterHitterRows df player_id start_date end_date side team_id
        position, r'.gamePk = r.gamePk →
        r'.plateAppearances ≤ r.plateAppearances) ∧
    ((dedupByGame (filterHitterRows df player_id start_date end_date side
      team_id position)).map (·.gamePk)).Nodup ∧
    (∀ g, g ∈ (dedupByGame (filterHitterRows df player_id start_date end_date
        side team_id position)).map (·.gamePk) ↔
      g ∈ (filterHitterRows df player_id start_date end_date side team_id
        position).map (·.gamePk)) := by
  refine ⟨?_, fun r hr => dedupByGame_mem _ r hr, ?_, ?_⟩
  · rw [calculate_hitter_metrics_from_boxscore]
    simp only [Bool.not_true, Bool.false_eq_true, if_false]
    rw [if_neg (by simpa [List.isEmpty_iff] using hne),
      if_neg (by simpa [List.isEmpty_iff] using dedupByGame_ne_nil _ hne)]
  · rw [dedupByGame_map_gamePk]
    exact firstOccKeys_nodup _
  · intro g
    rw [dedupByGame_map_gamePk, mem_firstOccKeys]

theorem boxscore_dedup_spec_witness :
    filterHitterRows dbDup 10 0 100 none none none ≠ [] ∧
    calculate_hitter_metrics_from_boxscore true dbDup 10 0 100 none none
        none =
      .metrics (computeHitterMetricsBX (dedupByGame (filterHitterRows dbDup
        10 0 100 none none none))) :=
  ⟨by decide, (boxscore_dedup_spec dbDup 10 0 100 none none none
    (by decide)).1⟩

/-! ### Claim C3 — zero-denominator policy -/

/-- C3 counterexample: `calculate_fip_without_hbp` (cited by the claim) is a
derived rate stat whose denominator is the innings total, and at `IP = 0` it
returns the `np.nan` sentinel, not `0` — a second exception besides the
walk/strikeout ratio. -/
theorem fip_nan_counterexample :
    calculate_fip_without_hbp 1 1 1 0 3 = .nan ∧
    PyFloat.nan ≠ PyFloat.val 0 := by
  with_unfolding_all decide

/-- C3 amended: the hitter aggregation returns 0 for every rate stat whose
denominator sums to zero (with AVG = 30/100 = 0.300 on the example), and the
walk/strikeout ratio is `inf` when strikeouts are zero and walks positive —
but there are two further sentinel exceptions: FIP is `np.nan` when the
innings total is zero, and the pitcher aggregation's K/BB is `np.nan` when
the walk sum is zero. -/
theorem zero_denominator_policy (rows : List HitterRow)
    (pdf : List PitcherRow) (hr bb k c : ℚ) :
    (sumBy rows (·.atBats) = 0 →
      (computeHitterMetricsBM rows).AVG = 0 ∧
      (computeHitterMetricsBM rows).SLG = 0) ∧
    (sumBy rows (·.atBats) + sumBy rows (·.baseOnBalls) +
        sumBy rows (·.hitByPitch) + sumBy rows (·.sacFlies) = 0 →
      (computeHitterMetricsBM rows).OBP = 0) ∧
    (sumBy rows (·.plateAppearances) = 0 →
      (computeHitterMetricsBM rows).HRpct = 0 ∧
      (computeHitterMetricsBM rows).Kpct = 0 ∧
      (computeHitterMetricsBM rows).BBpct = 0) ∧
    (sumBy rows (·.stolenBases) + sumBy rows (·.caughtStealing) = 0 →
      (computeHitterMetricsBM rows).SBpct = 0) ∧
    (sumBy rows (·.strikeOuts) = 0 → 0 < sumBy rows (·.baseOnBalls) →
      (computeHitterMetricsBM rows).BBK = .inf) ∧
    (sumBy rows (·.strikeOuts) = 0 → sumBy rows (·.baseOnBalls) = 0 →
      (computeHitterMetricsBM rows).BBK = .val 0) ∧
    (sumBy rows (·.hits) = 30 → sumBy rows (·.atBats) = 100 →
      (computeHitterMetricsBM rows).AVG = 3/10) ∧
    calculate_fip_without_hbp hr bb k 0 c = .nan ∧
    (sumByP pdf (·.baseOnBalls) = 0 → (calculate_metrics pdf).KBB = .nan) := by
  refine ⟨fun h => ?_, fun h => ?_, fun h => ?_, fun h => ?_,
    fun h1 h2 => ?_, fun h1 h2 => ?_, fun h1 h2 => ?_, ?_, fun h => ?_⟩
  · simp [computeHitterMetricsBM, h]
  · simp [computeHitterMetricsBM, h]
  · simp [computeHitterMetricsBM, h]
  · simp [computeHitterMetricsBM, h]
  · simp [computeHitterMetricsBM, h1, h2]
  · simp [computeHitterMetricsBM, h1, h2]
  · norm_num [computeHitterMetricsBM, h1, h2]
  · simp [calculate_fip_without_hbp]
  · simp [calculate_metrics, h]

/-- Player 10's line with 30 hits in 100 at bats. -/
def row30 : HitterRow :=
  { rowA with
    hits := 30
    atBats := 100
    plateAppearances := 100
    totalBases := 30 }

/-- Player 10's line with one walk and no strikeouts. -/
def rowWalk : HitterRow :=
  { rowA with
    baseOnBalls := 1
    plateAppearances := 5 }

theorem zero_denominator_policy_witness :
    (computeHitterMetricsBM []).AVG = 0 ∧
    (computeHitterMetricsBM []).SLG = 0 ∧
    (computeHitterMetricsBM []).OBP = 0 ∧
    (computeHitterMetricsBM []).HRpct = 0 ∧
    (computeHitterMetricsBM []).SBpct = 0 ∧
    (computeHitterMetricsBM []).BBK = .val 0 ∧
    (computeHitterMetricsBM [rowWalk]).BBK = .inf ∧
    (computeHitterMetricsBM [row30]).AVG = 3/10 ∧
    calculate_fip_without_hbp 1 1 1 0 3 = .nan ∧
    (calculate_metrics []).KBB = .nan := by
  have h0 := zero_denominator_policy [] [] 1 1 1 3
  have hw := zero_denominator_policy [rowWalk] [] 1 1 1 3
  have h30 := zero_denominator_policy [row30] [] 1 1 1 3
  refine ⟨(h0.1 rfl).1, (h0.1 rfl).2, h0.2.1 rfl, (h0.2.2.1 rfl).1,
    h0.2.2.2.1 rfl, h0.2.2.2.2.2.1 rfl rfl,
    hw.2.2.2.2.1 rfl (by decide), h30.2.2.2.2.2.2.1 rfl rfl,
    h0.2.2.2.2.2.2.2.1, h0.2.2.2.2.2.2.2.2 rfl⟩

/-! ### Claim C7 — empty aggregation -/

/-- C7 counterexample: aggregating zero pitcher rows leaves the walk sum at
zero, so the derived K/BB metric is the `np.nan` sentinel — not zero as the
claim states for all derived metrics (no division error is raised,
though). -/
theorem empty_pitcher_kbb_counterexample :
    (calculate_metrics []).KBB = .nan ∧
    PyFloat.nan ≠ PyFloat.val 0 := by
  with_unfolding_all decide

/-- C7 amended: aggregating an empty row collection raises no division
error and yields all-zero derived metrics, except that the pitcher
aggregation's K/BB is the `np.nan` sentinel (its `if BB` guard fails). -/
theorem empty_aggregation_all_zero :
    calculate_hitter_metrics true [] 10 0 100 none none none =
      .metrics (computeHitterMetricsBM []) ∧
    computeHitterMetricsBM [] =
      { AVG := 0, OBP := 0, SLG := 0, OPS := 0, RBI := 0, Runs := 0,
        Doubles := 0, Triples := 0, HomeRuns := 0, StolenBases := 0,
        BBK := .val 0, SBpct := 0, ISO := 0, HRpct := 0, Kpct := 0,
        BBpct := 0 } ∧
    calculate_metrics [] =
      { ERA := 0, WHIP := 0, G := 0, GS := 0, TBF := 0, Wins := 0,
        Losses := 0, Saves := 0, Holds := 0, BS := 0, InningsPitched := 0,
        HR := 0, Strikeouts := 0, Walks := 0, HBP := 0, WP := 0, BK := 0,
        Pitches := 0, Balls := 0, Strikes := 0, K9 := 0, BB9 := 0, H9 := 0,
        HR9 := 0, KBB := .nan, Kpct := 0, BBpct := 0, KminusBBpct := 0,
        BIP := 0, HRperBIP := 0, BABIP := 0 } := by
  with_unfolding_all decide

/-! ### Claim C8 — missing data file -/

/-- C8 counterexample: `baseball_metrics.calculate_hitter_metrics` wraps
`pd.read_csv` in no `try`, so with the merged data file absent the
`FileNotFoundError` propagates out of the aggregation — no user-facing error
value is returned. -/
theorem missing_file_raises_counterexample :
    calculate_hitter_metrics false dbDup 10 0 100 none none none =
      .raisesFileNotFound := by
  decide

/-- C8 amended: with the merged data file absent,
`calculate_hitter_metrics_from_boxscore` returns the `{"error": …}` record,
but `baseball_metrics.calculate_hitter_metrics` lets the
`FileNotFoundError` propagate. -/
theorem missing_file_handling (df : List HitterRow) (player_id : Nat)
    (start_date end_date : Nat) (side : Option String) (team_id : Option Nat)
    (position : Option String) :
    calculate_hitter_metrics_from_boxscore false df player_id start_date
        end_date side team_id position =
      .error "The data file 'merged_hitters_boxscore_all.csv' was not found." ∧
    calculate_hitter_metrics false df player_id start_date end_date side
        team_id position = .raisesFileNotFound :=
  ⟨rfl, rfl⟩

/-! ### Claim C9 — empty filter result -/

/-- C9 counterexample: when the filter matches no rows,
`baseball_metrics.calculate_hitter_metrics` (an aggregator cited by the
claim) returns an ordinary metrics record — the all-zero aggregation of zero
rows — not an informational no-data result distinguishable from an error
(its result type has no message value at all). -/
theorem empty_filter_plain_metrics_counterexample :
    calculate_hitter_metrics true dbDup 999 0 100 none none none =
      .metrics (computeHitterMetricsBM []) := by
  with_unfolding_all decide

/-- C9 amended: on an empty filter result
`calculate_hitter_metrics_from_boxscore` returns the `{"message": …}`
no-data record, which is distinct from every `{"error": …}` record;
`baseball_metrics.calculate_hitter_metrics` instead returns the all-zero
metrics record of an empty aggregation. -/
theorem empty_filter_no_data_message (df : List HitterRow) (player_id : Nat)
    (start_date end_date : Nat) (side : Option String) (team_id : Option Nat)
    (position : Option String)
    (h : filterHitterRows df player_id start_date end_date side team_id
      position = []) :
    calculate_hitter_metrics_from_boxscore true df player_id start_date
        end_date side team_id position =
      .message ("No data found for player " ++ toString player_id ++
        " in the selected timeframe.") ∧
    (∀ s t : String, HitterResultBX.message s ≠ HitterResultBX.error t) ∧
    calculate_hitter_metrics true df player_id start_date end_date side
        team_id position = .metrics (computeHitterMetricsBM []) := by
  refine ⟨?_, fun s t hc => HitterResultBX.noConfusion hc, ?_⟩
  · rw [calculate_hitter_metrics_from_boxscore]
    simp [h]
  · rw [calculate_hitter_metrics]
    simp [h]

theorem empty_filter_no_data_message_witness :
    filterHitterRows dbDup 999 0 100 none none none = [] ∧
    calculate_hitter_metrics_from_boxscore true dbDup 999 0 100 none none
        none =
      .message ("No data found for player " ++ toString 999 ++
        " in the selected timeframe.") :=
  ⟨by decide, (empty_filter_no_data_message dbDup 999 0 100 none none none
    (by decide)).1⟩

/-! ### Claim C10 — innings-pitched conversion -/

/-- C10: the claimed conversion (`3·whole + 1` when the fractional part is
exactly 0.1, `3·whole + 2` for 0.2, `3·whole` otherwise, `0` on unparseable
input) is the exact-arithmetic reading of `convert_ip_to_outs`, and the
aggregate innings denominator is indeed `round(outs / 3, 1)`; but the code
compares binary64 values, and for the innings value 1.1 the fractional part
`float64(1.1) - 1` differs from `float64(0.1)`, so the code returns 3 outs
where the claim requires `3·1 + 1 = 4` — the `.1`/`.2` branches are hit only
for a zero whole part (e.g. the literal 0.1 itself still maps to 1 out). -/
theorem convert_ip_float_bug :
    convert_ip_to_outs dbl11 = 3 ∧
    pyInt dbl11 = 1 ∧
    dbl11 - 1 ≠ dbl01 ∧
    convert_ip_to_outs_exact (some (11/10)) = 4 ∧
    convert_ip_to_outs_exact none = 0 ∧
    convert_ip_to_outs dbl01 = 1 ∧
    (∀ pdf : List PitcherRow, (calculate_metrics pdf).InningsPitched =
      pyRound 1 ((((pdf.map
        (fun r => convert_ip_to_outs r.inningsPitched)).sum : ℤ) : ℚ) / 3)) := by
  refine ⟨?_, ?_, ?_, ?_, rfl, ?_, fun pdf => rfl⟩
  · norm_num [convert_ip_to_outs, pyInt, dbl11, dbl01, dbl02]
  · norm_num [pyInt, dbl11]
  · norm_num [dbl11, dbl01]
  · norm_num [convert_ip_to_outs_exact, pyInt]
  · norm_num [convert_ip_to_outs, pyInt, dbl01, dbl02]

end DataFetching
